/-
A shallow embedding of the 5G core simulation backend (`src/main.py`,
`src/schemas.py`).  The MongoDB store becomes a record of lists, one per
collection, in insertion order; `find_one` becomes `List.find?` (first match
in natural order), `update_one` updates the first matching document, and
`create_document` appends.  Each HTTP endpoint becomes a function that
returns its result as `Except HTTPError _` together with the post-state of
the store; mutations performed before a raised `HTTPException` persist, as
they do in the Python code.
-/
import Mathlib

namespace FiveG

/-- A JSON-ish scalar value, enough for the `Dict[str, Any]` payloads
(`qos`, `charging`, log `context`) that the verified claims touch. -/
inductive Val where
  | i : Int → Val
  | s : String → Val
deriving DecidableEq

/-- Free-form string-keyed mapping (`Dict[str, Any]`), as an association list. -/
abbrev Dict := List (String × Val)

/-- `schemas.UE`.  Timestamps are abstracted to `Nat` seconds. -/
structure UE where
  supi : String
  guti : Option String
  plmn : String
  slices : List String
  registered : Bool
  amf_id : Option String
  last_seen : Option Nat
deriving DecidableEq

/-- `schemas.Slice`. -/
structure Slice where
  slice_id : String
  sst : String
  sd : Option String
  description : Option String
  plmns : List String
deriving DecidableEq

/-- `schemas.PolicyRule`. -/
structure PolicyRule where
  policy_id : String
  desc : Option String
  qos : Dict
  charging : Dict
deriving DecidableEq

/-- `schemas.PDUSession`. -/
structure PDUSession where
  session_id : String
  supi : String
  dnn : String
  s_nssai : String
  smf_id : Option String
  upf_id : Option String
  state : String
  qos_rules : Dict
  ul_bytes : Int
  dl_bytes : Int
deriving DecidableEq

/-- `schemas.NFService`. -/
structure NFService where
  nf_type : String
  nf_id : String
  status : String
  api_base : String
  capabilities : List String
deriving DecidableEq

/-- The raw `upfstate` documents written by `establish_session` and
`simulate_traffic` (no pydantic schema exists for them): `upf_id` is copied
from `PDUSession.upf_id`, hence optional. -/
structure UPFState where
  upf_id : Option String
  ul_bytes : Int
  dl_bytes : Int
deriving DecidableEq

/-- `schemas.LogEntry` (the stored `created_at` timestamp is irrelevant to
the claims and omitted). -/
structure LogEntry where
  nf : String
  level : String
  message : String
  context : Dict
deriving DecidableEq

/-- The document store: one list per collection, in insertion order. -/
structure DB where
  ue : List UE
  slice : List Slice
  policyrule : List PolicyRule
  pdusession : List PDUSession
  nfservice : List NFService
  upfstate : List UPFState
  logentry : List LogEntry
deriving DecidableEq

/-- An `HTTPException(code, msg)`. -/
structure HTTPError where
  code : Nat
  msg : String
deriving DecidableEq

/-- `update_one(filter, {"$set"/"$inc": ...})` without upsert: rewrite the
first matching document, leave everything else alone. -/
def updateFirst (p : α → Bool) (f : α → α) : List α → List α
  | [] => []
  | x :: xs => if p x then f x :: xs else x :: updateFirst p f xs

/-- Append one log record (`create_document("logentry", ...)`). -/
def logAdd (db : DB) (e : LogEntry) : DB :=
  { db with logentry := db.logentry ++ [e] }

/-- `POST /nssf/select-slice` (`select_slice` in `main.py`): pick the first
slice whose `plmns` array contains `plmn`, else any first slice, else 404. -/
def select_slice (db : DB) (supi plmn : String) :
    Except HTTPError String × DB :=
  match (db.slice.find? (fun sl => sl.plmns.contains plmn)).or db.slice.head? with
  | none => (.error ⟨404, "No slices configured"⟩, db)
  | some sl =>
    (.ok sl.slice_id,
      logAdd db ⟨"NSSF", "INFO", "Slice selected",
        [("supi", .s supi), ("slice", .s sl.slice_id)]⟩)

/-- The log record emitted by a successful `authenticate`. -/
def authLog (supi : String) : LogEntry :=
  ⟨"UDM/AUSF", "INFO", "UE authenticated", [("supi", .s supi)]⟩

/-- `POST /udm/authenticate` (`authenticate`): 404 when no UE has this
`supi`, else return `("OK", "auth-" ++ supi)` and log. -/
def authenticate (db : DB) (supi : String) :
    Except HTTPError (String × String) × DB :=
  match db.ue.find? (fun u => u.supi == supi) with
  | none => (.error ⟨404, "UE not found"⟩, db)
  | some _ => (.ok ("OK", "auth-" ++ supi), logAdd db (authLog supi))

/-- `POST /pcf/policy` (`set_policy`): create-or-replace keyed by
`policy_id`, and log whether it created or updated. -/
def set_policy (db : DB) (rule : PolicyRule) : String × DB :=
  if db.policyrule.any (fun p => p.policy_id == rule.policy_id) then
    ("updated",
      logAdd { db with policyrule := updateFirst (fun p => p.policy_id == rule.policy_id) (fun _ => rule) db.policyrule }
        ⟨"PCF", "INFO", "Policy updated", [("policy_id", .s rule.policy_id)]⟩)
  else
    ("created",
      logAdd { db with policyrule := db.policyrule ++ [rule] }
        ⟨"PCF", "INFO", "Policy created", [("policy_id", .s rule.policy_id)]⟩)

/-- `POST /amf/register-ue` (`amf_register_ue`): upsert the request body by
`supi`, forcing `registered := true` and `last_seen := now` in both branches. -/
def amf_register_ue (db : DB) (now : Nat) (ue : UE) : String × DB :=
  if db.ue.any (fun u => u.supi == ue.supi) then
    ("updated",
      logAdd { db with ue := updateFirst (fun u => u.supi == ue.supi) (fun _ => { ue with registered := true, last_seen := some now }) db.ue }
        ⟨"AMF", "INFO", "UE updated", [("supi", .s ue.supi)]⟩)
  else
    ("registered",
      logAdd { db with ue := db.ue ++ [{ ue with registered := true, last_seen := some now }] }
        ⟨"AMF", "INFO", "UE registered", [("supi", .s ue.supi)]⟩)

/-- The "ensure UE exists (or create)" step at the top of
`ue_registration_flow`: a missing UE is created with `registered=False`. -/
def ensure_ue (db : DB) (supi plmn : String) : DB :=
  if (db.ue.find? (fun u => u.supi == supi)).isNone then
    { db with ue := db.ue ++ [⟨supi, none, plmn, [], false, none, none⟩] }
  else db

/-- The `$set` document of `ue_registration_flow`'s final `update_one`:
`{"registered": True, "last_seen": now, "slices": [sliceId], "amf_id": "amf-1"}`. -/
def markRegistered (now : Nat) (sliceId : String) (u : UE) : UE :=
  { u with registered := true, last_seen := some now, slices := [sliceId], amf_id := some "amf-1" }

/-- `POST /amf/ue-registration-flow` (`ue_registration_flow`): validate the
payload, ensure the UE exists, authenticate, select a slice, then mark the
UE registered.  An `HTTPException` raised by a sub-step aborts the flow but
keeps the mutations already made (here: the UE creation and sub-step logs). -/
def ue_registration_flow (db : DB) (now : Nat) (supi plmn : String) :
    Except HTTPError (String × String) × DB :=
  if supi = "" ∨ plmn = "" then (.error ⟨400, "supi and plmn required"⟩, db)
  else
    match authenticate (ensure_ue db supi plmn) supi with
    | (.error e, db2) => (.error e, db2)
    | (.ok auth, db2) =>
      if auth.1 ≠ "OK" then (.error ⟨401, "Authentication failed"⟩, db2)
      else
        match select_slice db2 supi plmn with
        | (.error e, db3) => (.error e, db3)
        | (.ok sliceId, db3) =>
          (.ok ("OK", sliceId),
            logAdd { db3 with ue := updateFirst (fun u => u.supi == supi) (markRegistered now sliceId) db3.ue }
              ⟨"AMF", "INFO", "UE registration flow complete",
                [("supi", .s supi), ("slice", .s sliceId)]⟩)

/-- The session identifier synthesized by `establish_session`:
`f"sess-{supi}-{int(datetime.now().timestamp())}"`. -/
def sessionId (supi : String) (now : Nat) : String :=
  "sess-" ++ supi ++ "-" ++ Nat.repr now

/-- The policy snapshot taken by `establish_session` (and
`create_pdu_session`): the first stored policy's `qos`, else the hard-coded
default `{"5qi": 9}`. -/
def qosOf (db : DB) : Dict :=
  match db.policyrule.head? with
  | some pol => pol.qos
  | none => [("5qi", .i 9)]

/-- `establish_session`'s UPF resolution: the `nf_id` of the first
`nfservice` document with `nf_type == "UPF"`, else the literal `"upf-1"`. -/
def upfOf (db : DB) : String :=
  match db.nfservice.find? (fun svc => svc.nf_type == "UPF") with
  | some svc => svc.nf_id
  | none => "upf-1"

/-- `s_nssai or (ue.get("slices") or ["default"])[0]`: the request's slice
when it is a non-empty (truthy) string, else the UE's first granted slice,
else `"default"`.  A `some ""` mirrors an explicit empty string in the
payload, which is falsy in Python. -/
def snssaiOf (ue : UE) (s_nssai : Option String) : String :=
  match s_nssai with
  | some s => if s = "" then (match ue.slices with | [] => "default" | s0 :: _ => s0) else s
  | none => match ue.slices with | [] => "default" | s0 :: _ => s0

/-- The PDUSession document constructed by `establish_session`. -/
def newSession (db : DB) (now : Nat) (supi : String)
    (dnn s_nssai : Option String) (ue : UE) : PDUSession :=
  { session_id := sessionId supi now, supi := supi,
    dnn := dnn.getD "internet", s_nssai := snssaiOf ue s_nssai,
    smf_id := some "smf-1", upf_id := some (upfOf db),
    state := "ACTIVE", qos_rules := qosOf db, ul_bytes := 0, dl_bytes := 0 }

/-- `db["upfstate"].update_one({"upf_id": upf_id}, {"$setOnInsert": {...}},
upsert=True)`: create a zeroed aggregate document when none exists; change
nothing otherwise. -/
def upsertUpfState (upf_id : String) (db : DB) : DB :=
  if db.upfstate.any (fun st => st.upf_id == some upf_id) then db
  else { db with upfstate := db.upfstate ++ [⟨some upf_id, 0, 0⟩] }

/-- `POST /smf/establish-session` (`establish_session`): require a UE with
`registered=True`; snapshot the first policy's `qos` (default `{5qi: 9}`);
resolve a UPF from the NF registry (default `"upf-1"`); create the
PDUSession; lazily create the zeroed `upfstate` document (`$setOnInsert`
upsert); log and return.  `dnn` and `s_nssai` model `payload.get("dnn",
"internet")` and `payload.get("slice")`. -/
def establish_session (db : DB) (now : Nat) (supi : String)
    (dnn s_nssai : Option String) :
    Except HTTPError (String × String × String × Dict) × DB :=
  if supi = "" then (.error ⟨400, "supi required"⟩, db)
  else
    match db.ue.find? (fun u => u.supi == supi && u.registered) with
    | none => (.error ⟨400, "UE not registered"⟩, db)
    | some ue =>
      (.ok ("OK", sessionId supi now, upfOf db, qosOf db),
        logAdd (upsertUpfState (upfOf db) { db with pdusession := db.pdusession ++ [newSession db now supi dnn s_nssai ue] })
          ⟨"SMF", "INFO", "Session established", [("session_id", .s (sessionId supi now))]⟩)

/-- `POST /upf/simulate-traffic/{session_id}` (`simulate_traffic`):
404 when the session is absent; otherwise `$inc` the session counters and
(upserting) the owning `upfstate` aggregate by the same amounts.  `ul`/`dl`
model `payload.get("ul", 1000)` / `payload.get("dl", 2000)`.  Documents in
`pdusession` always carry the `upf_id` key (pydantic `model_dump` stores it,
possibly as null), so `sess.get("upf_id", "upf-1")` is `sess.upf_id`. -/
def incSession (u d : Int) (s : PDUSession) : PDUSession :=
  { s with ul_bytes := s.ul_bytes + u, dl_bytes := s.dl_bytes + d }

def incUpf (u d : Int) (st : UPFState) : UPFState :=
  { st with ul_bytes := st.ul_bytes + u, dl_bytes := st.dl_bytes + d }

/-- `db["upfstate"].update_one({"upf_id": uid}, {"$inc": {...}},
upsert=True)`: increment the first matching aggregate document, or create
one carrying the filter's `upf_id` and the incremented amounts. -/
def upsertIncUpf (uid : Option String) (u d : Int) (l : List UPFState) : List UPFState :=
  if l.any (fun st => st.upf_id == uid) then updateFirst (fun st => st.upf_id == uid) (incUpf u d) l
  else l ++ [⟨uid, u, d⟩]

def simulate_traffic (db : DB) (session_id : String) (ul dl : Option Int) :
    Except HTTPError String × DB :=
  match db.pdusession.find? (fun s => s.session_id == session_id) with
  | none => (.error ⟨404, "Session not found"⟩, db)
  | some sess =>
    (.ok "ok",
      logAdd { db with pdusession := updateFirst (fun s => s.session_id == session_id) (incSession (ul.getD 1000) (dl.getD 2000)) db.pdusession, upfstate := upsertIncUpf sess.upf_id (ul.getD 1000) (dl.getD 2000) db.upfstate }
        ⟨"UPF", "INFO", "Traffic simulated",
          [("session_id", .s session_id), ("ul", .i (ul.getD 1000)), ("dl", .i (dl.getD 2000))]⟩)

/-! ### Store-level helper lemmas -/

theorem find?_updateFirst {α : Type} (p : α → Bool) (f : α → α)
    (hp : ∀ a, p a = true → p (f a) = true) :
    ∀ l : List α, (updateFirst p f l).find? p = (l.find? p).map f := by
  intro l
  induction l with
  | nil => rfl
  | cons x xs ih =>
    by_cases hx : p x = true
    · simp [updateFirst, hx, List.find?_cons_of_pos, hp x hx]
    · simp only [updateFirst, hx, if_false, Bool.false_eq_true]
      rw [List.find?_cons_of_neg _ (by simp [hx]), List.find?_cons_of_neg _ (by simp [hx]), ih]

/-! ### C10: slice selection is independent of the subscriber -/

/-- C10.  The slice returned by `selectSlice` does not depend on the
subscriber: for a fixed store and PLMN, any two `supi` values yield the same
result (`slice_id` or error), and the resulting stores agree on everything
except the emitted log record. -/
theorem select_slice_supi_independent (db : DB) (plmn s1 s2 : String) :
    (select_slice db s1 plmn).1 = (select_slice db s2 plmn).1 ∧
    (select_slice db s1 plmn).2 =
      { (select_slice db s2 plmn).2 with logentry := (select_slice db s1 plmn).2.logentry } := by
  unfold select_slice
  cases h : (db.slice.find? fun sl => sl.plmns.contains plmn).or db.slice.head? <;>
    simp [logAdd]

/-! ### C4: slice selection semantics -/

/-- C4.  `selectSlice` returns a slice whose `plmns` contains the PLMN when
one exists; otherwise, if any slice is configured at all, it still returns
some configured slice; and with zero slices it fails (404, the
`NoSliceAvailable` case). -/
theorem select_slice_cases (db : DB) (supi plmn : String) :
    ((∃ sl ∈ db.slice, plmn ∈ sl.plmns) →
      ∃ sl ∈ db.slice, plmn ∈ sl.plmns ∧ (select_slice db supi plmn).1 = .ok sl.slice_id) ∧
    ((∀ sl ∈ db.slice, plmn ∉ sl.plmns) → db.slice ≠ [] →
      ∃ sl ∈ db.slice, (select_slice db supi plmn).1 = .ok sl.slice_id) ∧
    (db.slice = [] → (select_slice db supi plmn).1 = .error ⟨404, "No slices configured"⟩) := by
  refine ⟨?_, ?_, ?_⟩
  · rintro ⟨sl, hmem, hplmn⟩
    have hsome : (db.slice.find? fun sl => sl.plmns.contains plmn).isSome := by
      rw [List.find?_isSome]
      exact ⟨sl, hmem, by simpa [List.contains] using hplmn⟩
    obtain ⟨sl', hfind⟩ := Option.isSome_iff_exists.mp hsome
    have hmem' : sl' ∈ db.slice := List.mem_of_find?_eq_some hfind
    have hplmn' : plmn ∈ sl'.plmns := by
      have := List.find?_some hfind
      simpa [List.contains] using this
    refine ⟨sl', hmem', hplmn', ?_⟩
    unfold select_slice
    rw [hfind]
    simp
  · intro hnone hne
    have hfindnone : db.slice.find? (fun sl => sl.plmns.contains plmn) = none := by
      rw [List.find?_eq_none]
      intro sl hmem
      simpa [List.contains] using hnone sl hmem
    cases hhd : db.slice with
    | nil => exact absurd hhd hne
    | cons sl0 rest =>
      refine ⟨sl0, by simp [hhd], ?_⟩
      unfold select_slice
      rw [hfindnone]
      simp [hhd]
  · intro hnil
    unfold select_slice
    simp [hnil]

/-! ### C1: session establishment requires a registered UE -/

/-- C1.  If no UE record for `supi` exists, or every UE record for `supi`
has `registered=false`, then `establishSession` fails with the
`UENotRegistered` error and the `pdusession` collection (indeed the whole
store) is left unchanged. -/
theorem establish_session_requires_registration (db : DB) (now : Nat)
    (supi : String) (dnn s_nssai : Option String) (hs : supi ≠ "")
    (h : ∀ u ∈ db.ue, u.supi = supi → u.registered = false) :
    (establish_session db now supi dnn s_nssai).1 = .error ⟨400, "UE not registered"⟩ ∧
    (establish_session db now supi dnn s_nssai).2.pdusession = db.pdusession := by
  have hfind : db.ue.find? (fun u => u.supi == supi && u.registered) = none := by
    rw [List.find?_eq_none]
    intro u hu
    simp only [Bool.and_eq_true, beq_iff_eq, not_and]
    intro hsupi
    simp [h u hu hsupi]
  unfold establish_session
  simp [hs, hfind]

/-- Witness for C1 at a concrete store: one unregistered UE. -/
theorem establish_session_requires_registration_witness :
    ("imsi-1" : String) ≠ "" ∧
    (establish_session ⟨[⟨"imsi-1", none, "001-01", [], false, none, none⟩], [], [], [], [], [], []⟩
        3 "imsi-1" none none).1 = .error ⟨400, "UE not registered"⟩ := by
  refine ⟨by decide, ?_⟩
  exact (establish_session_requires_registration
    ⟨[⟨"imsi-1", none, "001-01", [], false, none, none⟩], [], [], [], [], [], []⟩
    3 "imsi-1" none none (by decide) (by decide)).1

/-- Witness for C4 at a concrete store: one slice allowing PLMN 001-01. -/
theorem select_slice_cases_witness :
    (∃ sl ∈ [Slice.mk "1" "eMBB" none none ["001-01"]], "001-01" ∈ sl.plmns ∧
      (select_slice ⟨[], [⟨"1", "eMBB", none, none, ["001-01"]⟩], [], [], [], [], []⟩
        "imsi-1" "001-01").1 = .ok sl.slice_id) := by
  exact (select_slice_cases
    ⟨[], [⟨"1", "eMBB", none, none, ["001-01"]⟩], [], [], [], [], []⟩ "imsi-1" "001-01").1
    ⟨⟨"1", "eMBB", none, none, ["001-01"]⟩, by simp, by simp⟩

/-! ### Registration-flow helper lemmas -/

theorem authenticate_of_found (db : DB) (supi : String) (u : UE)
    (hf : db.ue.find? (fun x => x.supi == supi) = some u) :
    authenticate db supi = (.ok ("OK", "auth-" ++ supi), logAdd db (authLog supi)) := by
  unfold authenticate
  rw [hf]

theorem select_slice_snd_ue (db : DB) (supi plmn : String) :
    (select_slice db supi plmn).2.ue = db.ue := by
  unfold select_slice
  cases (db.slice.find? fun sl => sl.plmns.contains plmn).or db.slice.head? <;> simp [logAdd]

theorem select_slice_of_no_slices (db : DB) (supi plmn : String) (h : db.slice = []) :
    select_slice db supi plmn = (.error ⟨404, "No slices configured"⟩, db) := by
  unfold select_slice
  simp [h]

theorem ensure_ue_slice (db : DB) (supi plmn : String) :
    (ensure_ue db supi plmn).slice = db.slice := by
  unfold ensure_ue
  split <;> rfl

theorem ensure_ue_find (db : DB) (supi plmn : String)
    (hreg : ∀ u ∈ db.ue, u.supi = supi → u.registered = false) :
    ∃ u, (ensure_ue db supi plmn).ue.find? (fun x => x.supi == supi) = some u ∧
      u.registered = false := by
  unfold ensure_ue
  cases hf : db.ue.find? (fun x => x.supi == supi) with
  | some u =>
    refine ⟨u, by simp [hf], ?_⟩
    have hsupi : u.supi = supi := by simpa using List.find?_some hf
    exact hreg u (List.mem_of_find?_eq_some hf) hsupi
  | none =>
    refine ⟨⟨supi, none, plmn, [], false, none, none⟩, ?_, rfl⟩
    simp [hf, List.find?_append]

theorem ensure_ue_find_some (db : DB) (supi plmn : String) :
    ∃ u, (ensure_ue db supi plmn).ue.find? (fun x => x.supi == supi) = some u := by
  unfold ensure_ue
  cases hf : db.ue.find? (fun x => x.supi == supi) with
  | some u => exact ⟨u, by simp [hf]⟩
  | none => exact ⟨⟨supi, none, plmn, [], false, none, none⟩, by simp [hf, List.find?_append]⟩

theorem ue_registration_flow_eq_err (db : DB) (now : Nat) (supi plmn : String)
    (u0 : UE) (e : HTTPError) (db3 : DB)
    (hval : ¬(supi = "" ∨ plmn = ""))
    (hfind : (ensure_ue db supi plmn).ue.find? (fun x => x.supi == supi) = some u0)
    (hsel : select_slice (logAdd (ensure_ue db supi plmn) (authLog supi)) supi plmn =
      (.error e, db3)) :
    ue_registration_flow db now supi plmn = (.error e, db3) := by
  unfold ue_registration_flow
  rw [if_neg hval, authenticate_of_found _ _ _ hfind]
  show (match select_slice (logAdd (ensure_ue db supi plmn) (authLog supi)) supi plmn with
    | (.error e, db3) => ((.error e : Except HTTPError (String × String)), db3)
    | (.ok sliceId, db3) =>
      (.ok ("OK", sliceId),
        logAdd { db3 with ue := updateFirst (fun u => u.supi == supi) (markRegistered now sliceId) db3.ue }
          ⟨"AMF", "INFO", "UE registration flow complete",
            [("supi", .s supi), ("slice", .s sliceId)]⟩)) = _
  rw [hsel]

theorem ue_registration_flow_eq_ok (db : DB) (now : Nat) (supi plmn : String)
    (u0 : UE) (sliceId : String) (db3 : DB)
    (hval : ¬(supi = "" ∨ plmn = ""))
    (hfind : (ensure_ue db supi plmn).ue.find? (fun x => x.supi == supi) = some u0)
    (hsel : select_slice (logAdd (ensure_ue db supi plmn) (authLog supi)) supi plmn =
      (.ok sliceId, db3)) :
    ue_registration_flow db now supi plmn =
      (.ok ("OK", sliceId),
        logAdd { db3 with ue := updateFirst (fun u => u.supi == supi) (markRegistered now sliceId) db3.ue }
          ⟨"AMF", "INFO", "UE registration flow complete",
            [("supi", .s supi), ("slice", .s sliceId)]⟩) := by
  unfold ue_registration_flow
  rw [if_neg hval, authenticate_of_found _ _ _ hfind]
  show (match select_slice (logAdd (ensure_ue db supi plmn) (authLog supi)) supi plmn with
    | (.error e, db3) => ((.error e : Except HTTPError (String × String)), db3)
    | (.ok sliceId, db3) =>
      (.ok ("OK", sliceId),
        logAdd { db3 with ue := updateFirst (fun u => u.supi == supi) (markRegistered now sliceId) db3.ue }
          ⟨"AMF", "INFO", "UE registration flow complete",
            [("supi", .s supi), ("slice", .s sliceId)]⟩)) = _
  rw [hsel]

/-! ### C2: a successful registration flow marks the UE registered -/

/-- C2.  When `runRegistrationFlow(supi, plmn)` succeeds, it returns
`("OK", selectedSlice)`, and the UE record for `supi` afterwards has
`registered=true`, `slices=[selectedSlice]` and `amf_id="amf-1"`. -/
theorem ue_registration_flow_success (db : DB) (now : Nat) (supi plmn : String)
    (r : String × String)
    (h : (ue_registration_flow db now supi plmn).1 = .ok r) :
    r.1 = "OK" ∧
    ∃ u, (ue_registration_flow db now supi plmn).2.ue.find? (fun x => x.supi == supi) = some u ∧
      u.registered = true ∧ u.slices = [r.2] ∧ u.amf_id = some "amf-1" := by
  by_cases hval : supi = "" ∨ plmn = ""
  · unfold ue_registration_flow at h
    simp [hval] at h
  · obtain ⟨u0, hfind⟩ := ensure_ue_find_some db supi plmn
    cases hsel : select_slice (logAdd (ensure_ue db supi plmn) (authLog supi)) supi plmn with
    | mk selr db3 =>
      cases selr with
      | error e =>
        rw [ue_registration_flow_eq_err db now supi plmn u0 e db3 hval hfind hsel] at h
        exact absurd h (by simp)
      | ok sliceId =>
        rw [ue_registration_flow_eq_ok db now supi plmn u0 sliceId db3 hval hfind hsel] at h ⊢
        have hr : r = ("OK", sliceId) := by
          simpa using h.symm
        subst hr
        refine ⟨rfl, ?_⟩
        have hue3 : db3.ue = (ensure_ue db supi plmn).ue := by
          have h1 := select_slice_snd_ue (logAdd (ensure_ue db supi plmn) (authLog supi)) supi plmn
          rw [hsel] at h1
          exact h1
        have hpres : ∀ u : UE, (u.supi == supi) = true →
            ((markRegistered now sliceId u).supi == supi) = true := by
          intro u hu
          simpa [markRegistered] using hu
        refine ⟨markRegistered now sliceId u0, ?_, rfl, rfl, rfl⟩
        show ((updateFirst (fun u => u.supi == supi) (markRegistered now sliceId) db3.ue).find?
          (fun x => x.supi == supi)) = some (markRegistered now sliceId u0)
        rw [find?_updateFirst _ _ hpres, hue3, hfind]
        rfl

/-- Witness for C2: one configured slice, fresh subscriber. -/
theorem ue_registration_flow_success_witness :
    (ue_registration_flow ⟨[], [⟨"1", "eMBB", none, none, ["001-01"]⟩], [], [], [], [], []⟩
        4 "imsi-1" "001-01").1 = .ok ("OK", "1") ∧
    (("OK", "1") : String × String).1 = "OK" ∧
    ∃ u, (ue_registration_flow ⟨[], [⟨"1", "eMBB", none, none, ["001-01"]⟩], [], [], [], [], []⟩
        4 "imsi-1" "001-01").2.ue.find? (fun x => x.supi == "imsi-1") = some u ∧
      u.registered = true ∧ u.slices = ["1"] ∧ u.amf_id = some "amf-1" := by
  refine ⟨rfl, ?_⟩
  exact ue_registration_flow_success
    ⟨[], [⟨"1", "eMBB", none, none, ["001-01"]⟩], [], [], [], [], []⟩ 4 "imsi-1" "001-01"
    ("OK", "1") rfl

/-! ### C5: no configured slice fails the flow and leaves the UE unregistered -/

/-- C5.  With zero configured slices, `runRegistrationFlow` fails with the
`NoSliceAvailable` error (404 "No slices configured"), and the UE record for
`supi` — created with `registered=false` at the start of the flow if absent
— still has `registered=false` afterwards. -/
theorem ue_registration_flow_no_slice (db : DB) (now : Nat) (supi plmn : String)
    (hs : supi ≠ "") (hp : plmn ≠ "") (hsl : db.slice = [])
    (hreg : ∀ u ∈ db.ue, u.supi = supi → u.registered = false) :
    (ue_registration_flow db now supi plmn).1 = .error ⟨404, "No slices configured"⟩ ∧
    ∃ u, (ue_registration_flow db now supi plmn).2.ue.find? (fun x => x.supi == supi) = some u ∧
      u.registered = false := by
  obtain ⟨u0, hfind, hu0⟩ := ensure_ue_find db supi plmn hreg
  have hval : ¬(supi = "" ∨ plmn = "") := by
    rintro (h | h) <;> [exact hs h; exact hp h]
  have hsel := select_slice_of_no_slices (logAdd (ensure_ue db supi plmn) (authLog supi)) supi plmn
    ((ensure_ue_slice db supi plmn).trans hsl)
  rw [ue_registration_flow_eq_err db now supi plmn u0 ⟨404, "No slices configured"⟩
    (logAdd (ensure_ue db supi plmn) (authLog supi)) hval hfind hsel]
  refine ⟨rfl, u0, ?_, hu0⟩
  exact hfind

/-- Witness for C5: empty store, fresh subscriber. -/
theorem ue_registration_flow_no_slice_witness :
    (ue_registration_flow ⟨[], [], [], [], [], [], []⟩ 4 "imsi-1" "001-01").1 =
      .error ⟨404, "No slices configured"⟩ ∧
    ∃ u, (ue_registration_flow ⟨[], [], [], [], [], [], []⟩ 4 "imsi-1" "001-01").2.ue.find?
        (fun x => x.supi == "imsi-1") = some u ∧ u.registered = false := by
  exact ue_registration_flow_no_slice ⟨[], [], [], [], [], [], []⟩ 4 "imsi-1" "001-01"
    (by decide) (by decide) rfl (by simp)

/-! ### Session-establishment helper lemmas -/

theorem upsertUpfState_pdusession (uid : String) (db : DB) :
    (upsertUpfState uid db).pdusession = db.pdusession := by
  unfold upsertUpfState
  split <;> rfl

theorem upsertUpfState_policyrule (uid : String) (db : DB) :
    (upsertUpfState uid db).policyrule = db.policyrule := by
  unfold upsertUpfState
  split <;> rfl

theorem set_policy_pdusession (db : DB) (rule : PolicyRule) :
    (set_policy db rule).2.pdusession = db.pdusession := by
  unfold set_policy
  split <;> rfl

theorem establish_session_eq_ok (db : DB) (now : Nat) (supi : String)
    (dnn s_nssai : Option String) (ue : UE) (hs : ¬supi = "")
    (hfind : db.ue.find? (fun u => u.supi == supi && u.registered) = some ue) :
    establish_session db now supi dnn s_nssai =
      (.ok ("OK", sessionId supi now, upfOf db, qosOf db),
        logAdd (upsertUpfState (upfOf db) { db with pdusession := db.pdusession ++ [newSession db now supi dnn s_nssai ue] })
          ⟨"SMF", "INFO", "Session established", [("session_id", .s (sessionId supi now))]⟩) := by
  unfold establish_session
  rw [if_neg hs, hfind]

theorem establish_session_ok_inv (db : DB) (now : Nat) (supi : String)
    (dnn s_nssai : Option String) (r : String × String × String × Dict)
    (h : (establish_session db now supi dnn s_nssai).1 = .ok r) :
    ¬supi = "" ∧ ∃ ue, db.ue.find? (fun u => u.supi == supi && u.registered) = some ue := by
  by_cases hs : supi = ""
  · unfold establish_session at h
    rw [if_pos hs] at h
    exact absurd h (by simp)
  · cases hfind : db.ue.find? (fun u => u.supi == supi && u.registered) with
    | none =>
      unfold establish_session at h
      rw [if_neg hs, hfind] at h
      exact absurd h (by simp)
    | some ue => exact ⟨hs, ue, rfl⟩

theorem upfOf_cases (db : DB) :
    (∃ svc ∈ db.nfservice, svc.nf_type = "UPF" ∧ upfOf db = svc.nf_id) ∨
    ((∀ svc ∈ db.nfservice, svc.nf_type ≠ "UPF") ∧ upfOf db = "upf-1") := by
  unfold upfOf
  cases hf : db.nfservice.find? (fun svc => svc.nf_type == "UPF") with
  | some svc =>
    exact .inl ⟨svc, List.mem_of_find?_eq_some hf, by simpa using List.find?_some hf, rfl⟩
  | none =>
    refine .inr ⟨?_, rfl⟩
    intro svc hmem
    simpa using List.find?_eq_none.mp hf svc hmem

theorem qosOf_cases (db : DB) :
    (∃ pol, db.policyrule.head? = some pol ∧ qosOf db = pol.qos) ∨
    (db.policyrule = [] ∧ qosOf db = [("5qi", Val.i 9)]) := by
  unfold qosOf
  rcases hpr : db.policyrule with _ | ⟨p, ps⟩
  · exact .inr ⟨rfl, rfl⟩
  · exact .inl ⟨p, rfl, rfl⟩

theorem snssaiOf_eq_getD (ue : UE) (s_nssai : Option String) (hsn : s_nssai ≠ some "") :
    snssaiOf ue s_nssai = s_nssai.getD (ue.slices.headD "default") := by
  cases s_nssai with
  | none =>
    show (match ue.slices with | [] => "default" | s0 :: _ => s0) = ue.slices.headD "default"
    cases ue.slices <;> rfl
  | some s =>
    show (if s = "" then (match ue.slices with | [] => "default" | s0 :: _ => s0) else s) = s
    rw [if_neg fun h => hsn (by rw [h])]

/-! ### C3: resolution rules of a successful session establishment -/

/-- C3.  A successful `establishSession` resolves the UPF to the `nf_id` of
a stored NFService of type UPF when one exists (else `"upf-1"`); the
returned qos snapshot is the first stored policy's `qos` when one exists
(else the hard default `{5qi: 9}`), it is copied onto the created session,
and the policy store is not written; the created session's `s_nssai` is the
requested slice, else the UE's first granted slice, else `"default"`. -/
theorem establish_session_resolution (db : DB) (now : Nat) (supi : String)
    (dnn s_nssai : Option String) (r : String × String × String × Dict)
    (hsn : s_nssai ≠ some "")
    (h : (establish_session db now supi dnn s_nssai).1 = .ok r) :
    ((∃ svc ∈ db.nfservice, svc.nf_type = "UPF" ∧ r.2.2.1 = svc.nf_id) ∨
      ((∀ svc ∈ db.nfservice, svc.nf_type ≠ "UPF") ∧ r.2.2.1 = "upf-1")) ∧
    ((∃ pol, db.policyrule.head? = some pol ∧ r.2.2.2 = pol.qos) ∨
      (db.policyrule = [] ∧ r.2.2.2 = [("5qi", Val.i 9)])) ∧
    (∃ ue sess, db.ue.find? (fun u => u.supi == supi && u.registered) = some ue ∧
      (establish_session db now supi dnn s_nssai).2.pdusession = db.pdusession ++ [sess] ∧
      sess.s_nssai = s_nssai.getD (ue.slices.headD "default") ∧
      sess.qos_rules = r.2.2.2) ∧
    (establish_session db now supi dnn s_nssai).2.policyrule = db.policyrule := by
  obtain ⟨hs, ue, hfind⟩ := establish_session_ok_inv db now supi dnn s_nssai r h
  rw [establish_session_eq_ok db now supi dnn s_nssai ue hs hfind] at h ⊢
  have hr : r = ("OK", sessionId supi now, upfOf db, qosOf db) := by simpa using h.symm
  subst hr
  refine ⟨upfOf_cases db, qosOf_cases db, ?_, ?_⟩
  · exact ⟨ue, newSession db now supi dnn s_nssai ue, hfind,
      upsertUpfState_pdusession (upfOf db) _, snssaiOf_eq_getD ue s_nssai hsn, rfl⟩
  · exact upsertUpfState_policyrule (upfOf db) _

/-- Witness for C3: registered UE with slice `"1"`, one policy, no UPF
service registered. -/
theorem establish_session_resolution_witness :
    ((none : Option String) ≠ some "") ∧
    ((∃ svc ∈ ([] : List NFService), svc.nf_type = "UPF" ∧
        (("OK", sessionId "imsi-1" 5, "upf-1", [("5qi", Val.i 7)]) : String × String × String × Dict).2.2.1 = svc.nf_id) ∨
      ((∀ svc ∈ ([] : List NFService), svc.nf_type ≠ "UPF") ∧
        (("OK", sessionId "imsi-1" 5, "upf-1", [("5qi", Val.i 7)]) : String × String × String × Dict).2.2.1 = "upf-1")) := by
  refine ⟨by simp, ?_⟩
  exact (establish_session_resolution
    ⟨[⟨"imsi-1", none, "001-01", ["1"], true, some "amf-1", none⟩], [],
      [⟨"p1", none, [("5qi", Val.i 7)], []⟩], [], [], [], []⟩
    5 "imsi-1" none none ("OK", sessionId "imsi-1" 5, "upf-1", [("5qi", Val.i 7)])
    (by simp) rfl).1

/-! ### C6: the session's policy snapshot is immutable under setPolicy -/

/-- C6.  A successful `establishSession` appends one PDUSession whose
`qos_rules` equal the returned snapshot, and a subsequent `setPolicy` call —
whatever rule it writes — leaves the `pdusession` collection, hence that
stored snapshot, unchanged. -/
theorem session_snapshot_immutable (db : DB) (now : Nat) (supi : String)
    (dnn s_nssai : Option String) (r : String × String × String × Dict)
    (h : (establish_session db now supi dnn s_nssai).1 = .ok r) (rule : PolicyRule) :
    (∃ sess, (establish_session db now supi dnn s_nssai).2.pdusession = db.pdusession ++ [sess] ∧
      sess.session_id = r.2.1 ∧ sess.qos_rules = r.2.2.2) ∧
    (set_policy (establish_session db now supi dnn s_nssai).2 rule).2.pdusession =
      (establish_session db now supi dnn s_nssai).2.pdusession := by
  obtain ⟨hs, ue, hfind⟩ := establish_session_ok_inv db now supi dnn s_nssai r h
  refine ⟨?_, set_policy_pdusession _ rule⟩
  rw [establish_session_eq_ok db now supi dnn s_nssai ue hs hfind] at h ⊢
  have hr : r = ("OK", sessionId supi now, upfOf db, qosOf db) := by simpa using h.symm
  subst hr
  exact ⟨newSession db now supi dnn s_nssai ue, upsertUpfState_pdusession (upfOf db) _, rfl, rfl⟩

/-- Witness for C6: concrete store with a registered UE and one policy. -/
theorem session_snapshot_immutable_witness :
    (establish_session ⟨[⟨"imsi-1", none, "001-01", ["1"], true, some "amf-1", none⟩], [],
        [⟨"p1", none, [("5qi", Val.i 7)], []⟩], [], [], [], []⟩ 5 "imsi-1" none none).1 =
      .ok ("OK", sessionId "imsi-1" 5, "upf-1", [("5qi", Val.i 7)]) ∧
    ((∃ sess, (establish_session ⟨[⟨"imsi-1", none, "001-01", ["1"], true, some "amf-1", none⟩], [],
        [⟨"p1", none, [("5qi", Val.i 7)], []⟩], [], [], [], []⟩ 5 "imsi-1" none none).2.pdusession =
        ([] : List PDUSession) ++ [sess] ∧
      sess.session_id = sessionId "imsi-1" 5 ∧ sess.qos_rules = [("5qi", Val.i 7)]) ∧
    (set_policy (establish_session ⟨[⟨"imsi-1", none, "001-01", ["1"], true, some "amf-1", none⟩], [],
        [⟨"p1", none, [("5qi", Val.i 7)], []⟩], [], [], [], []⟩ 5 "imsi-1" none none).2
        ⟨"p1", none, [("5qi", Val.i 42)], []⟩).2.pdusession =
      (establish_session ⟨[⟨"imsi-1", none, "001-01", ["1"], true, some "amf-1", none⟩], [],
        [⟨"p1", none, [("5qi", Val.i 7)], []⟩], [], [], [], []⟩ 5 "imsi-1" none none).2.pdusession) := by
  refine ⟨rfl, ?_⟩
  exact session_snapshot_immutable
    ⟨[⟨"imsi-1", none, "001-01", ["1"], true, some "amf-1", none⟩], [],
      [⟨"p1", none, [("5qi", Val.i 7)], []⟩], [], [], [], []⟩
    5 "imsi-1" none none ("OK", sessionId "imsi-1" 5, "upf-1", [("5qi", Val.i 7)])
    rfl ⟨"p1", none, [("5qi", Val.i 42)], []⟩

/-! ### C7: traffic simulation -/

theorem simulate_traffic_eq_found (db : DB) (sid : String) (ul dl : Option Int)
    (sess : PDUSession)
    (hfind : db.pdusession.find? (fun s => s.session_id == sid) = some sess) :
    simulate_traffic db sid ul dl =
      (.ok "ok",
        logAdd { db with pdusession := updateFirst (fun s => s.session_id == sid) (incSession (ul.getD 1000) (dl.getD 2000)) db.pdusession, upfstate := upsertIncUpf sess.upf_id (ul.getD 1000) (dl.getD 2000) db.upfstate }
          ⟨"UPF", "INFO", "Traffic simulated",
            [("session_id", .s sid), ("ul", .i (ul.getD 1000)), ("dl", .i (dl.getD 2000))]⟩) := by
  unfold simulate_traffic
  rw [hfind]

/-- C7.  `simulateTraffic` defaults its amounts to `ul=1000, dl=2000`;
fails with the `NotFoundError` (404) and changes nothing when the session
is absent; and otherwise reports ok, adds the amounts to the session's
counters, and adds the same amounts to the owning UPF aggregate —
incrementing the existing `upfstate` document, or creating one initialized
with exactly these amounts when none exists. -/
theorem simulate_traffic_spec (db : DB) (sid : String) (ul dl : Option Int) :
    (simulate_traffic db sid none none = simulate_traffic db sid (some 1000) (some 2000)) ∧
    (db.pdusession.find? (fun s => s.session_id == sid) = none →
      simulate_traffic db sid ul dl = (.error ⟨404, "Session not found"⟩, db)) ∧
    (∀ sess, db.pdusession.find? (fun s => s.session_id == sid) = some sess →
      (simulate_traffic db sid ul dl).1 = .ok "ok" ∧
      (simulate_traffic db sid ul dl).2.pdusession.find? (fun s => s.session_id == sid) =
        some (incSession (ul.getD 1000) (dl.getD 2000) sess) ∧
      ((∀ st ∈ db.upfstate, st.upf_id ≠ sess.upf_id) →
        (simulate_traffic db sid ul dl).2.upfstate =
          db.upfstate ++ [⟨sess.upf_id, ul.getD 1000, dl.getD 2000⟩]) ∧
      (∀ st0, db.upfstate.find? (fun st => st.upf_id == sess.upf_id) = some st0 →
        (simulate_traffic db sid ul dl).2.upfstate.find? (fun st => st.upf_id == sess.upf_id) =
          some (incUpf (ul.getD 1000) (dl.getD 2000) st0))) := by
  refine ⟨rfl, ?_, ?_⟩
  · intro hnone
    unfold simulate_traffic
    rw [hnone]
  · intro sess hfind
    rw [simulate_traffic_eq_found db sid ul dl sess hfind]
    refine ⟨rfl, ?_, ?_, ?_⟩
    · show (updateFirst (fun s => s.session_id == sid) (incSession (ul.getD 1000) (dl.getD 2000)) db.pdusession).find?
        (fun s => s.session_id == sid) = some (incSession (ul.getD 1000) (dl.getD 2000) sess)
      rw [find?_updateFirst _ _ (fun s hs => by simpa [incSession] using hs), hfind]
      rfl
    · intro hnone'
      show upsertIncUpf sess.upf_id (ul.getD 1000) (dl.getD 2000) db.upfstate =
        db.upfstate ++ [⟨sess.upf_id, ul.getD 1000, dl.getD 2000⟩]
      unfold upsertIncUpf
      rw [if_neg ?caseNeg]
      case caseNeg =>
        intro hany
        obtain ⟨st, hmem, hbeq⟩ := List.any_eq_true.mp hany
        exact hnone' st hmem (by simpa using hbeq)
    · intro st0 hf0
      show (upsertIncUpf sess.upf_id (ul.getD 1000) (dl.getD 2000) db.upfstate).find?
        (fun st => st.upf_id == sess.upf_id) = some (incUpf (ul.getD 1000) (dl.getD 2000) st0)
      unfold upsertIncUpf
      rw [if_pos (List.any_eq_true.mpr ⟨st0, List.mem_of_find?_eq_some hf0, List.find?_some hf0⟩)]
      rw [find?_updateFirst _ _ (fun st hst => by simpa [incUpf] using hst), hf0]
      rfl

/-- Witness for C7: one session with counters at zero over UPF `upf-1`,
driven twice with `ul=500, dl=700`, ending at `1000/1400` on both the
session and the aggregate. -/
theorem simulate_traffic_spec_witness :
    (DB.mk [] [] [] [⟨"s1", "imsi-1", "internet", "1", some "smf-1", some "upf-1", "ACTIVE", [], 0, 0⟩] [] [⟨some "upf-1", 0, 0⟩] []).pdusession.find?
      (fun s => s.session_id == "s1") =
      some ⟨"s1", "imsi-1", "internet", "1", some "smf-1", some "upf-1", "ACTIVE", [], 0, 0⟩ ∧
    (simulate_traffic (DB.mk [] [] [] [⟨"s1", "imsi-1", "internet", "1", some "smf-1", some "upf-1", "ACTIVE", [], 0, 0⟩] [] [⟨some "upf-1", 0, 0⟩] []) "s1" (some 500) (some 700)).1 = .ok "ok" ∧
    (simulate_traffic (simulate_traffic (DB.mk [] [] [] [⟨"s1", "imsi-1", "internet", "1", some "smf-1", some "upf-1", "ACTIVE", [], 0, 0⟩] [] [⟨some "upf-1", 0, 0⟩] []) "s1" (some 500) (some 700)).2 "s1" (some 500) (some 700)).2.pdusession =
      [⟨"s1", "imsi-1", "internet", "1", some "smf-1", some "upf-1", "ACTIVE", [], 1000, 1400⟩] ∧
    (simulate_traffic (simulate_traffic (DB.mk [] [] [] [⟨"s1", "imsi-1", "internet", "1", some "smf-1", some "upf-1", "ACTIVE", [], 0, 0⟩] [] [⟨some "upf-1", 0, 0⟩] []) "s1" (some 500) (some 700)).2 "s1" (some 500) (some 700)).2.upfstate =
      [⟨some "upf-1", 1000, 1400⟩] := by
  refine ⟨by decide, ?_, by decide, by decide⟩
  exact ((simulate_traffic_spec
    (DB.mk [] [] [] [⟨"s1", "imsi-1", "internet", "1", some "smf-1", some "upf-1", "ACTIVE", [], 0, 0⟩] [] [⟨some "upf-1", 0, 0⟩] [])
    "s1" (some 500) (some 700)).2.2
    ⟨"s1", "imsi-1", "internet", "1", some "smf-1", some "upf-1", "ACTIVE", [], 0, 0⟩ (by decide)).1

/-! ### Decimal rendering of `Nat`: `Nat.repr` is injective

`sessionId` embeds the timestamp through `Nat.repr`; to reason about
session-id collisions we relate the fuel-based `Nat.toDigitsCore` to a
structurally transparent digit-list function and prove it injective. -/

/-- The decimal digit characters of `n`, most significant first. -/
def reprChars (n : Nat) : List Char :=
  if _h : n < 10 then [Nat.digitChar n]
  else reprChars (n / 10) ++ [Nat.digitChar (n % 10)]
decreasing_by exact Nat.div_lt_self (by omega) (by omega)

theorem reprChars_eq_small (n : Nat) (h : n < 10) : reprChars n = [Nat.digitChar n] := by
  rw [reprChars]
  exact dif_pos h

theorem reprChars_eq_big (n : Nat) (h : ¬n < 10) :
    reprChars n = reprChars (n / 10) ++ [Nat.digitChar (n % 10)] := by
  rw [reprChars]
  exact dif_neg h

theorem toDigitsCore_eq_reprChars :
    ∀ (f n : Nat) (l : List Char), n < f →
      Nat.toDigitsCore 10 f n l = reprChars n ++ l := by
  intro f
  induction f with
  | zero => intro n l h; omega
  | succ f ih =>
    intro n l h
    by_cases h10 : n / 10 = 0
    · have hn : n < 10 := by omega
      have hmod : n % 10 = n := Nat.mod_eq_of_lt hn
      simp only [Nat.toDigitsCore, h10, if_true, reduceIte]
      rw [reprChars_eq_small n hn, hmod]
      rfl
    · have hn : ¬n < 10 := by omega
      simp only [Nat.toDigitsCore]
      rw [if_neg h10, ih (n / 10) (Nat.digitChar (n % 10) :: l) (by omega)]
      rw [reprChars_eq_big n hn, List.append_assoc]
      rfl

theorem repr_eq_reprChars (n : Nat) : Nat.repr n = (reprChars n).asString := by
  unfold Nat.repr Nat.toDigits
  rw [toDigitsCore_eq_reprChars (n + 1) n [] (Nat.lt_succ_self n)]
  simp

theorem digitChar_inj_lt :
    ∀ a < 10, ∀ b < 10, Nat.digitChar a = Nat.digitChar b → a = b := by decide

theorem reprChars_ne_nil (n : Nat) : reprChars n ≠ [] := by
  by_cases h : n < 10
  · rw [reprChars_eq_small n h]
    simp
  · rw [reprChars_eq_big n h]
    simp

theorem reprChars_inj : ∀ a b : Nat, reprChars a = reprChars b → a = b := by
  intro a
  induction a using Nat.strong_induction_on with
  | _ a ih =>
    intro b h
    by_cases ha : a < 10 <;> by_cases hb : b < 10
    · rw [reprChars_eq_small a ha, reprChars_eq_small b hb] at h
      exact digitChar_inj_lt a ha b hb (by simpa using h)
    · rw [reprChars_eq_small a ha, reprChars_eq_big b hb] at h
      have hlen := congrArg List.length h
      simp only [List.length_append, List.length_cons, List.length_nil] at hlen
      exact absurd (List.eq_nil_of_length_eq_zero (by omega)) (reprChars_ne_nil (b / 10))
    · rw [reprChars_eq_big a ha, reprChars_eq_small b hb] at h
      have hlen := congrArg List.length h
      simp only [List.length_append, List.length_cons, List.length_nil] at hlen
      exact absurd (List.eq_nil_of_length_eq_zero (by omega)) (reprChars_ne_nil (a / 10))
    · rw [reprChars_eq_big a ha, reprChars_eq_big b hb] at h
      obtain ⟨h1, h2⟩ := List.append_inj' h rfl
      have hdiv : a / 10 = b / 10 :=
        ih (a / 10) (Nat.div_lt_self (by omega) (by omega)) (b / 10) h1
      have hmod : a % 10 = b % 10 :=
        digitChar_inj_lt (a % 10) (Nat.mod_lt a (by omega)) (b % 10) (Nat.mod_lt b (by omega))
          (by simpa using h2)
      omega

theorem nat_repr_injective (a b : Nat) (h : Nat.repr a = Nat.repr b) : a = b := by
  apply reprChars_inj
  rw [repr_eq_reprChars, repr_eq_reprChars] at h
  have h2 := congrArg String.data h
  exact h2

theorem sessionId_time_inj (supi : String) (t1 t2 : Nat)
    (h : sessionId supi t1 = sessionId supi t2) : t1 = t2 := by
  apply nat_repr_injective
  apply String.ext
  have h2 := congrArg String.data h
  simp only [sessionId, String.data_append, List.append_assoc] at h2
  exact List.append_inj_right (List.append_inj_right (List.append_inj_right h2 rfl) rfl) rfl

/-! ### C8: session ids are derived from (supi, second); same-second calls collide -/

/-- Counterexample to C8 as stated: two successful `establishSession` calls
for the same `supi` in the same clock second both succeed and produce the
SAME `session_id`, so the store ends up with two PDUSession records sharing
the "unique" key. -/
theorem establish_session_id_collision :
    (establish_session ⟨[⟨"imsi-1", none, "001-01", ["1"], true, some "amf-1", none⟩], [], [], [], [], [], []⟩
        5 "imsi-1" none none).1 = .ok ("OK", "sess-imsi-1-5", "upf-1", [("5qi", Val.i 9)]) ∧
    (establish_session
        (establish_session ⟨[⟨"imsi-1", none, "001-01", ["1"], true, some "amf-1", none⟩], [], [], [], [], [], []⟩
          5 "imsi-1" none none).2
        5 "imsi-1" none none).1 = .ok ("OK", "sess-imsi-1-5", "upf-1", [("5qi", Val.i 9)]) ∧
    (establish_session
        (establish_session ⟨[⟨"imsi-1", none, "001-01", ["1"], true, some "amf-1", none⟩], [], [], [], [], [], []⟩
          5 "imsi-1" none none).2
        5 "imsi-1" none none).2.pdusession.map (fun s => s.session_id) =
      ["sess-imsi-1-5", "sess-imsi-1-5"] := by
  refine ⟨rfl, rfl, rfl⟩

/-- C8 amended: `session_id` is `"sess-{supi}-{second}"`, so the ids of two
successful calls for the same `supi` are distinct whenever their creation
timestamps (seconds) differ; within the same second they collide. -/
theorem establish_session_distinct_times_distinct_ids (db1 db2 : DB) (t1 t2 : Nat)
    (supi : String) (dnn1 dnn2 sn1 sn2 : Option String)
    (r1 r2 : String × String × String × Dict)
    (h1 : (establish_session db1 t1 supi dnn1 sn1).1 = .ok r1)
    (h2 : (establish_session db2 t2 supi dnn2 sn2).1 = .ok r2)
    (ht : t1 ≠ t2) : r1.2.1 ≠ r2.2.1 := by
  obtain ⟨hs1, ue1, hf1⟩ := establish_session_ok_inv db1 t1 supi dnn1 sn1 r1 h1
  obtain ⟨hs2, ue2, hf2⟩ := establish_session_ok_inv db2 t2 supi dnn2 sn2 r2 h2
  rw [establish_session_eq_ok db1 t1 supi dnn1 sn1 ue1 hs1 hf1] at h1
  rw [establish_session_eq_ok db2 t2 supi dnn2 sn2 ue2 hs2 hf2] at h2
  have hr1 : r1 = ("OK", sessionId supi t1, upfOf db1, qosOf db1) := by simpa using h1.symm
  have hr2 : r2 = ("OK", sessionId supi t2, upfOf db2, qosOf db2) := by simpa using h2.symm
  subst hr1
  subst hr2
  intro heq
  exact ht (sessionId_time_inj supi t1 t2 heq)

/-- Witness for the amended C8: seconds 5 and 6 give distinct ids. -/
theorem establish_session_distinct_times_distinct_ids_witness :
    (establish_session ⟨[⟨"imsi-1", none, "001-01", ["1"], true, some "amf-1", none⟩], [], [], [], [], [], []⟩
        5 "imsi-1" none none).1 = .ok ("OK", sessionId "imsi-1" 5, "upf-1", [("5qi", Val.i 9)]) ∧
    (establish_session ⟨[⟨"imsi-1", none, "001-01", ["1"], true, some "amf-1", none⟩], [], [], [], [], [], []⟩
        6 "imsi-1" none none).1 = .ok ("OK", sessionId "imsi-1" 6, "upf-1", [("5qi", Val.i 9)]) ∧
    (5 : Nat) ≠ 6 ∧
    (("OK", sessionId "imsi-1" 5, "upf-1", ([("5qi", Val.i 9)] : Dict)) :
        String × String × String × Dict).2.1 ≠
      (("OK", sessionId "imsi-1" 6, "upf-1", ([("5qi", Val.i 9)] : Dict)) :
        String × String × String × Dict).2.1 := by
  refine ⟨rfl, rfl, by decide, ?_⟩
  exact establish_session_distinct_times_distinct_ids
    ⟨[⟨"imsi-1", none, "001-01", ["1"], true, some "amf-1", none⟩], [], [], [], [], [], []⟩
    ⟨[⟨"imsi-1", none, "001-01", ["1"], true, some "amf-1", none⟩], [], [], [], [], [], []⟩
    5 6 "imsi-1" none none none none
    ("OK", sessionId "imsi-1" 5, "upf-1", [("5qi", Val.i 9)])
    ("OK", sessionId "imsi-1" 6, "upf-1", [("5qi", Val.i 9)])
    rfl rfl (by decide)

/-! ### C9: registration status of freshly created UE records -/

/-- Counterexample to C9 as stated: `registerUE` for a `supi` with no
existing record creates the UE record with `registered=true` immediately,
not `registered=false`. -/
theorem amf_register_ue_creates_registered :
    (amf_register_ue ⟨[], [], [], [], [], [], []⟩ 7 ⟨"imsi-9", none, "001-01", [], false, none, none⟩).2.ue =
      [⟨"imsi-9", none, "001-01", [], true, none, some 7⟩] := by decide

/-- C9 amended: a UE record first created by `runRegistrationFlow` (for a
`supi` with no existing record) is created with `registered=false` and is
still unregistered whenever the flow fails, becoming registered only on
successful completion; `registerUE`, by contrast, immediately creates the
missing record with `registered=true`. -/
theorem ue_creation_registration_status (db : DB) (now : Nat) (supi plmn : String)
    (habs : db.ue.find? (fun u => u.supi == supi) = none) :
    (ensure_ue db supi plmn).ue = db.ue ++ [⟨supi, none, plmn, [], false, none, none⟩] ∧
    (∀ e, ¬(supi = "" ∨ plmn = "") →
      (ue_registration_flow db now supi plmn).1 = .error e →
      ∃ u, (ue_registration_flow db now supi plmn).2.ue.find? (fun x => x.supi == supi) = some u ∧
        u.registered = false) ∧
    (∃ u, (amf_register_ue db now ⟨supi, none, plmn, [], false, none, none⟩).2.ue.find?
        (fun x => x.supi == supi) = some u ∧ u.registered = true) := by
  refine ⟨?_, ?_, ?_⟩
  · unfold ensure_ue
    rw [habs]
    rfl
  · intro e hval herr
    have hreg : ∀ u ∈ db.ue, u.supi = supi → u.registered = false := by
      intro u hu hsupi
      have hne := List.find?_eq_none.mp habs u hu
      simp [hsupi] at hne
    obtain ⟨u0, hfind, hu0⟩ := ensure_ue_find db supi plmn hreg
    cases hsel : select_slice (logAdd (ensure_ue db supi plmn) (authLog supi)) supi plmn with
    | mk selr db3 =>
      cases selr with
      | ok sliceId =>
        rw [ue_registration_flow_eq_ok db now supi plmn u0 sliceId db3 hval hfind hsel] at herr
        exact absurd herr (by simp)
      | error e' =>
        rw [ue_registration_flow_eq_err db now supi plmn u0 e' db3 hval hfind hsel]
        have hue3 : db3.ue = (ensure_ue db supi plmn).ue := by
          have h1 := select_slice_snd_ue (logAdd (ensure_ue db supi plmn) (authLog supi)) supi plmn
          rw [hsel] at h1
          exact h1
        refine ⟨u0, ?_, hu0⟩
        show db3.ue.find? (fun x => x.supi == supi) = some u0
        rw [hue3]
        exact hfind
  · have hany : db.ue.any (fun u => u.supi == supi) = false := by
      cases hab : db.ue.any (fun u => u.supi == supi) with
      | false => rfl
      | true =>
        obtain ⟨u, hu, hbeq⟩ := List.any_eq_true.mp hab
        have hne := List.find?_eq_none.mp habs u hu
        exact absurd hbeq hne
    refine ⟨⟨supi, none, plmn, [], true, none, some now⟩, ?_, rfl⟩
    show ((amf_register_ue db now (⟨supi, none, plmn, [], false, none, none⟩ : UE)).2.ue).find?
      (fun x => x.supi == supi) = some (⟨supi, none, plmn, [], true, none, some now⟩ : UE)
    unfold amf_register_ue
    rw [if_neg (by rw [show (UE.mk supi none plmn [] false none none).supi = supi from rfl, hany]; exact Bool.false_ne_true)]
    show (db.ue ++ ([⟨supi, none, plmn, [], true, none, some now⟩] : List UE)).find? (fun x => x.supi == supi) =
      some (⟨supi, none, plmn, [], true, none, some now⟩ : UE)
    rw [List.find?_append, habs]
    simp

/-- Witness for the amended C9: empty store. -/
theorem ue_creation_registration_status_witness :
    (DB.mk [] [] [] [] [] [] []).ue.find? (fun u => u.supi == "imsi-1") = none ∧
    (ensure_ue (DB.mk [] [] [] [] [] [] []) "imsi-1" "001-01").ue =
      ([] : List UE) ++ [⟨"imsi-1", none, "001-01", [], false, none, none⟩] := by
  refine ⟨rfl, ?_⟩
  exact (ue_creation_registration_status (DB.mk [] [] [] [] [] [] []) 7 "imsi-1" "001-01" rfl).1

end FiveG
